import Mathlib

/-!
Shallow embedding of the TerraMind agricultural advisory backend core:
the session store (`backend/services/session.py`), the LLM response
parsing (`backend/services/llm.py`), and the query-orchestration
reasoning engine (`backend/agents/reasoning_engine.py`).

External effects (intent classification, geocoding, the five data
fetches, the text-generation call) are modelled by passing their
outcomes in as explicit values: each `await`ed call's result (value or
raised exception) is a field of an environment record, so the pure Lean
functions mirror the Python control flow exactly.

Python-specific semantics (truthiness of `or`, `str.strip`, `str.find`,
slicing, `in` substring tests) are embedded as explicit helper
functions on `String`/`List Char`.
-/

namespace TerraMind

/-- Python `a or b` for an optional string `a`: `a` is falsy when absent
or empty, in which case the result is `b` (a plain string default). -/
def pyOrStrD (a : Option String) (b : String) : String :=
  match a with
  | some s => if s = "" then b else s
  | none => b

/-- Python `a or b` where both sides are optional strings. -/
def pyOrOptStr (a b : Option String) : Option String :=
  match a with
  | some s => if s = "" then b else some s
  | none => b

/-- Python `a or b` for optional floats: `a` is falsy when absent or
equal to `0.0` (modelled over `ℚ`). -/
def pyOrQ (a b : Option ℚ) : Option ℚ :=
  match a with
  | some x => if x = 0 then b else some x
  | none => b

/-- Python truthiness of an optional string (`if s:`). -/
def truthyStr : Option String → Bool
  | some s => !(s = "")
  | none => false

/-- Python `needle in hay` substring test. -/
def hasSub (hay needle : String) : Bool :=
  decide (needle.toList <:+: hay.toList)

/-- Python `str.lower()` (ASCII case folding suffices for this code). -/
def pyLower (s : String) : String :=
  String.mk (s.toList.map Char.toLower)

/-- Python `str.strip()`: drop leading and trailing whitespace. -/
def pyStrip (s : String) : String :=
  String.mk (((s.toList.dropWhile Char.isWhitespace).reverse.dropWhile
    Char.isWhitespace).reverse)

/-- Python `str.endswith(suffix)`. -/
def pyEndsWith (s suffix : String) : Bool :=
  decide (suffix.toList <:+ s.toList)

/-- First index at which `needle` occurs in a character list
(Python `str.find`, with `none` standing for `-1`). -/
def findSub (needle : List Char) : List Char → Option Nat
  | [] => if needle.isEmpty then some 0 else none
  | c :: rest =>
    if needle.isPrefixOf (c :: rest) then some 0
    else (findSub needle rest).map (· + 1)

/-- Python `hay.find(needle)` on strings. -/
def strFind (hay needle : String) : Option Nat :=
  findSub needle.toList hay.toList

/-- Python character slice `s[a:b]` (for `0 ≤ a ≤ b` uses). -/
def pySlice (s : String) (a b : Nat) : String :=
  String.mk ((s.toList.drop a).take (b - a))

/-- Python `s[:n]`. -/
def pyTake (s : String) (n : Nat) : String :=
  String.mk (s.toList.take n)

/-- Python `l[-n:]` as used after a bound check: keep the last `n`
entries. -/
def takeLast (n : Nat) (l : List α) : List α :=
  l.drop (l.length - n)

/-- Structural worker for `pySplit` (the fuel argument strictly bounds
the number of examined characters, so it never runs out when started at
`l.length + 1`). -/
def splitGo (sep : List Char) : Nat → List Char → List (List Char)
  | 0, l => [l]
  | _fuel + 1, [] => [[]]
  | fuel + 1, c :: rest =>
    if sep ≠ [] ∧ sep.isPrefixOf (c :: rest) then
      [] :: splitGo sep fuel ((c :: rest).drop sep.length)
    else
      match splitGo sep fuel rest with
      | chunk :: chunks => (c :: chunk) :: chunks
      | [] => [[c]]

/-- Python `s.split(sep)` for a nonempty separator: non-overlapping
left-to-right splits, keeping empty chunks. -/
def pySplit (s sep : String) : List String :=
  (splitGo sep.toList (s.toList.length + 1) s.toList).map String.mk

/-- Structural worker for `pyReplace`. -/
def replaceGo (pat rep : List Char) : Nat → List Char → List Char
  | 0, l => l
  | _fuel + 1, [] => []
  | fuel + 1, c :: rest =>
    if pat ≠ [] ∧ pat.isPrefixOf (c :: rest) then
      rep ++ replaceGo pat rep fuel ((c :: rest).drop pat.length)
    else
      c :: replaceGo pat rep fuel rest

/-- Python `s.replace(pat, rep)` for a nonempty pattern: replace every
non-overlapping occurrence, left to right. -/
def pyReplace (s pat rep : String) : String :=
  String.mk (replaceGo pat.toList rep.toList (s.toList.length + 1) s.toList)

/-! ## Data model -/

/-- Classifier output consumed by the engine, with the `dict.get`
defaults from `reasoning_engine.py` already applied (`crop` defaults to
"unknown", `question_type` to "", `optimization_target` to "none",
`is_agricultural` to `True`, `location_address` to `None`). -/
structure Intent where
  crop : String
  question_type : String
  optimization_target : String
  location_address : Option String
  is_agricultural : Bool
  urgency : String
  keywords : List String
  deriving Repr, DecidableEq

/-- One history entry (`{"role", "content", "timestamp"}`). -/
structure Message where
  role : String
  content : String
  timestamp : String
  deriving Repr, DecidableEq

/-- `SessionState` dataclass from `services/session.py` (the
`last_active` timestamp is irrelevant to every claim and omitted from
the state carried through proofs). -/
structure SessionState where
  session_id : String
  crop : Option String := none
  location_label : Option String := none
  lat : Option ℚ := none
  lon : Option ℚ := none
  history : List Message := []
  key_facts : List String := []
  advisor_points : List String := []
  deriving Repr, DecidableEq

/-- `ForecastDay` dataclass from `services/weather.py`.
`precipitation_sum` is optional because the formatting code guards it
with `or 0`. -/
structure ForecastDay where
  date : String
  temp_max : ℚ
  temp_min : ℚ
  precipitation_sum : Option ℚ
  humidity_mean : ℚ
  eto : ℚ
  deriving Repr, DecidableEq

/-- `WeatherData` dataclass from `services/weather.py` (floats as `ℚ`,
the acquisition timestamp as an opaque string). -/
structure WeatherData where
  timestamp : String
  latitude : ℚ
  longitude : ℚ
  temperature_c : ℚ
  relative_humidity : ℚ
  precipitation_mm : ℚ
  wind_speed_kmh : ℚ
  wind_direction : Int
  soil_moisture_0_7cm : ℚ
  soil_moisture_7_28cm : ℚ
  soil_moisture_28_100cm : ℚ
  reference_evapotranspiration : ℚ
  spray_drift_risk : String
  fungal_risk : String
  forecast : List ForecastDay
  deriving Repr, DecidableEq

/-- `FieldAnalytics` dataclass from `services/geospatial.py`. -/
structure FieldAnalytics where
  latitude : ℚ
  longitude : ℚ
  analysis_date : String
  ndvi_current : ℚ
  ndvi_historical_avg : ℚ
  ndvi_anomaly : ℚ
  ndwi_current : ℚ
  water_stress_level : String
  county_avg_ndvi : ℚ
  relative_performance : String
  ndvi_tile_url : Option String := none
  ndwi_tile_url : Option String := none
  tile_url : Option String := none
  deriving Repr, DecidableEq

/-- `SearchResult` dataclass from `services/rag.py` (the free-form
`metadata` dict is opaque to all claim-relevant code and omitted). -/
structure SearchResult where
  text : String
  source : String
  page : Option Int
  score : ℚ
  deriving Repr, DecidableEq

/-- The dict returned by `MarketService.get_market_data` on success. -/
structure MarketData where
  available : Bool
  commodity : String := ""
  price : ℚ := 0
  unit : String := ""
  trend : String := ""
  source : String := ""
  date : String := ""
  deriving Repr, DecidableEq

/-- One entry of the static `chemicals.json` dataset. -/
structure Chemical where
  product_name : String
  active_ingredient : String
  crops : List String
  pests : List String
  rate : String
  rei : String
  deriving Repr, DecidableEq

/-- `LLMResponse` dataclass from `services/llm.py`. -/
structure LLMResponse where
  text : String
  voice_summary : String
  sources : List String
  confidence : ℚ
  deriving Repr, DecidableEq

/-- `AgentResponse` dataclass from `agents/reasoning_engine.py`. -/
structure AgentResponse where
  voice_response : String
  voice_summary : String
  full_response : String
  sources : List String
  weather_data : Option WeatherData := none
  satellite_data : Option FieldAnalytics := none
  rag_results : Option (List SearchResult) := none
  market_data : Option MarketData := none
  chemical_data : Option (List Chemical) := none
  crop : String := ""
  location_address : Option String := none
  lat : Option ℚ := none
  lon : Option ℚ := none
  query : String := ""
  timestamp : String := ""
  processing_time_ms : Int := 0
  deriving Repr, DecidableEq

/-! ## Session store (`services/session.py`)

The in-memory backend (the default, taken when no `REDIS_URL` is set)
stores one `SessionState` per id and mutates it in place; we model each
mutating method as a pure state transformer. -/

/-- The `if crop and crop.lower() != "unknown"` guard shared by
`update_context` and `update_memory`: store a truthy, non-"unknown"
crop. -/
def consolidate_crop (s : SessionState) (crop : Option String) : SessionState :=
  match crop with
  | some c => if c ≠ "" ∧ pyLower c ≠ "unknown" then { s with crop := some c } else s
  | none => s

/-- The `if location_label:` guard of `update_memory`: store a truthy
label. -/
def consolidate_label (s : SessionState) (label : Option String) : SessionState :=
  match label with
  | some lb => if lb ≠ "" then { s with location_label := some lb } else s
  | none => s

/-- `SessionManager.update_context`: store the crop when it is truthy
and not "unknown"; store the coordinate when both `lat` and `lon` are
present, and then also the label when it is truthy. -/
def update_context (s : SessionState) (crop : Option String)
    (lat lon : Option ℚ) (label : Option String) : SessionState :=
  let s := consolidate_crop s crop
  match lat, lon with
  | some la, some lo =>
    let s := { s with lat := some la, lon := some lo }
    match label with
    | some lb => if lb ≠ "" then { s with location_label := some lb } else s
    | none => s
  | _, _ => s

/-- `SessionManager.add_message`: append one history entry, then keep
only the latest 30 when the bound is exceeded. -/
def add_message (s : SessionState) (role content timestamp : String) :
    SessionState :=
  let h := s.history ++ [⟨role, content, timestamp⟩]
  { s with history := if h.length > 30 then takeLast 30 h else h }

/-- Cue words of `SessionManager._extract_key_facts`. -/
def key_fact_cues : List String :=
  ["acre", "acres", "gallon", "gpa", "lat", "lon", "north", "south",
   "east", "west", "near", "by", "field", "orchard", "block", "tomato",
   "almond", "walnut", "pistachio", "rice", "grape"]

/-- `SessionManager._extract_key_facts`: sentences (split on ".") that
contain a cue word or a digit, at most 3. -/
def extract_key_facts (text : String) : List String :=
  let sentences := ((pySplit (pyReplace text "\n" " ") ".").map pyStrip).filter
    (fun s => s ≠ "")
  let facts := sentences.filter (fun s =>
    key_fact_cues.any (fun c => hasSub (pyLower s) c) || s.toList.any Char.isDigit)
  facts.take 3

/-- `SessionManager._extract_advisor_points`: the first 3 nonempty
sentences of the assistant reply. -/
def extract_advisor_points (text : String) : List String :=
  (((pySplit (pyReplace text "\n" " ") ".").map pyStrip).filter
    (fun s => s ≠ "")).take 3

/-- Append `x` unless already present (the `if fact not in ...: append`
pattern of `update_memory`). -/
def appendUnique (l : List String) (x : String) : List String :=
  if x ∈ l then l else l ++ [x]

/-- `SessionManager.update_memory`: consolidate crop/location, merge
newly extracted facts and advisor points without duplicates, then bound
both lists to their latest 10 entries. -/
def update_memory (s : SessionState) (user_text assistant_text : String)
    (crop : Option String) (location_label : Option String) : SessionState :=
  let s := consolidate_crop s crop
  let s := consolidate_label s location_label
  let kf := (extract_key_facts user_text).foldl appendUnique s.key_facts
  let ap := (extract_advisor_points assistant_text).foldl appendUnique s.advisor_points
  { s with key_facts := takeLast 10 kf, advisor_points := takeLast 10 ap }

/-- A fresh session, as created on first reference to an unseen id. -/
def SessionState.empty (session_id : String) : SessionState :=
  { session_id := session_id }

/-- The message-append and memory-update operations of the session
store, for stating the session invariant over arbitrary interleavings. -/
inductive SessionOp
  | addMsg (role content timestamp : String)
  | updMemory (user_text assistant_text : String)
      (crop location_label : Option String)

/-- Apply one session-store operation. -/
def applySessionOp (s : SessionState) : SessionOp → SessionState
  | .addMsg role content timestamp => add_message s role content timestamp
  | .updMemory u a c lb => update_memory s u a c lb

/-- Apply a sequence of session-store operations. -/
def applySessionOps (s : SessionState) (ops : List SessionOp) : SessionState :=
  ops.foldl applySessionOp s

/-! ## LLM service (`services/llm.py`)

The network call `CloudflareLLMService.generate` is the external
boundary: its outcome (generated text, or a raised exception) is passed
in as an `Except` value. Everything after the call — the deterministic
fallback template and the tag parsing — is embedded below. The prompt
string built before the call is consumed only by the external call and
does not influence the modelled result. The trailing
`try`/`except` around the parsing (which would return confidence 0.5)
guards only total string operations (`find`, slicing, `strip`, `split`,
`replace`) and so never fires; the embedding is the always-taken branch. -/

/-- The hard-coded fallback text built when `generate` raises, from the
already-fetched context strings (f-string at `llm.py:199`). -/
def fallback_response_text (crop weather_context satellite_context rag_context : String) : String :=
  "\n<voice_summary>\nI\x27ve analyzed the field data for " ++
  pyOrStrD (some crop) "your crop" ++
  ". Verification of satellite layers aligns with current weather patterns.\n</voice_summary>\n\n<full_response>\n<div class=\"space-y-4\">\n    <div class=\"p-3 bg-emerald-900/20 border border-emerald-500/20 rounded-lg\">\n        <h3 class=\"text-emerald-400 font-bold mb-2 flex items-center gap-2\">\n            Field Analysis (Live Data)\n        </h3>\n        \n        <div class=\"grid grid-cols-1 gap-3 text-sm\">\n            <div>\n                <strong class=\"text-slate-300\">Satellite Telemetry:</strong>\n                <p class=\"text-emerald-50 mt-1 pl-2 border-l-2 border-emerald-500/50\">" ++
  satellite_context ++
  "</p>\n            </div>\n            \n            <div>\n                <strong class=\"text-slate-300\">Weather Conditions:</strong>\n                <p class=\"text-emerald-50 mt-1 pl-2 border-l-2 border-blue-500/50\">" ++
  weather_context ++
  "</p>\n            </div>\n        </div>\n    </div>\n\n    <div>\n        <strong class=\"text-slate-300\">Research Context:</strong>\n        <p class=\"text-slate-400 text-sm mt-1\">" ++
  (pyTake rag_context 300 ++ (if rag_context.toList.length > 300 then "..." else "")) ++
  "</p>\n    </div>\n\n    <p class=\"text-xs text-amber-500/80 italic mt-4 border-t border-white/5 pt-2\">\n        *Note: AI reasoning is currently limited due to connectivity, but the data above is real, live, and actionable.*\n    </p>\n</div>\n</full_response>\n"

/-- The tag-parsing block of
`CloudflareLLMService.generate_agricultural_response` (lines 236-277):
parse the three delimiter blocks by first occurrence, with the
documented fallbacks for missing blocks. Note the sources block is
split on the two-character sequence backslash-n (`split` on a
double-escaped newline in the source), not on newline. -/
def parse_llm_output (response_text : String) : LLMResponse :=
  let voice_summary :=
    match strFind response_text "<voice_summary>", strFind response_text "</voice_summary>" with
    | some v_start, some v_end => pyStrip (pySlice response_text (v_start + 15) v_end)
    | _, _ => ""
  let full_response :=
    match strFind response_text "<full_response>", strFind response_text "</full_response>" with
    | some f_start, some f_end => pyStrip (pySlice response_text (f_start + 15) f_end)
    | _, _ => ""
  let sources :=
    match strFind response_text "<sources>", strFind response_text "</sources>" with
    | some s_start, some s_end =>
      let sources_text := pyStrip (pySlice response_text (s_start + 9) s_end)
      if sources_text ≠ "" then
        ((pySplit sources_text "\x5cn").map pyStrip).filter (fun s => s ≠ "")
      else []
    | _, _ => []
  let full_response :=
    if full_response = "" then
      pyReplace (pyReplace response_text "<full_response>" "") "</full_response>" ""
    else full_response
  let voice_summary :=
    if voice_summary = "" then pyTake full_response 300 ++ "..." else voice_summary
  { text := full_response, voice_summary := voice_summary,
    sources := sources, confidence := 9 / 10 }

/-- `CloudflareLLMService.generate_agricultural_response`, outcome
selection (lines 188-234) followed by the tag parsing: the generated
text when the call succeeded, else the deterministic fallback template. -/
def generate_agricultural_response (genOutcome : Except String String)
    (query crop weather_context satellite_context rag_context : String)
    (economic_context market_context chemical_context : Option String)
    (history : List Message) : LLMResponse :=
  parse_llm_output
    (match genOutcome with
     | Except.ok t => t
     | Except.error _ =>
       fallback_response_text crop weather_context satellite_context rag_context)

/-! ## Reasoning engine (`agents/reasoning_engine.py`) -/

/-- Regional fallback coordinate from `config.py` (`yolo_county_lat`). -/
def yolo_county_lat : ℚ := 38.7646

/-- Regional fallback coordinate from `config.py` (`yolo_county_lon`). -/
def yolo_county_lon : ℚ := -121.9018

/-- The fixed non-agricultural refusal text (`reasoning_engine.py:84`). -/
def refusal_text : String :=
  "I specialize in agricultural advice for Yolo County only. Please ask me about crops, weather, regulations, pests, or market data."

/-- `ReasoningEngine._format_weather`: the placeholder for a missing
snapshot, else current conditions plus a 7-day precipitation summary
when forecast entries exist. Numeric rendering is abstracted by
`toString` on `ℚ` (the Python code interpolates floats). -/
def format_weather : Option WeatherData → String
  | none => "Weather unavailable."
  | some w =>
    let base_info :=
      "Temp: " ++ toString w.temperature_c ++ "C, Hum: " ++
      toString w.relative_humidity ++ "%, Wind: " ++
      toString w.wind_speed_kmh ++ "kmh, Current Precip: " ++
      toString w.precipitation_mm ++ "mm, Soil(0-7cm): " ++
      toString w.soil_moisture_0_7cm ++ ", Soil(28-100cm): " ++
      toString w.soil_moisture_28_100cm ++ ", ETo: " ++
      toString w.reference_evapotranspiration ++ "mm, SprayRisk: " ++
      w.spray_drift_risk
    if w.forecast ≠ [] then
      let precip_forecast := w.forecast.filterMap (fun day =>
        let precip := day.precipitation_sum.getD 0
        if precip > 0 then some (day.date ++ ": " ++ toString precip ++ "mm") else none)
      let total_precip := w.forecast.foldl
        (fun acc day => acc + day.precipitation_sum.getD 0) 0
      let rainy_days :=
        (w.forecast.filter (fun day => day.precipitation_sum.getD 0 > 0)).length
      let forecast_summary :=
        " | 7-Day Forecast: " ++ toString total_precip ++ "mm total, " ++
        toString rainy_days ++ " rainy days"
      let forecast_summary :=
        if precip_forecast ≠ [] then
          forecast_summary ++ " (" ++ String.intercalate ", " (precip_forecast.take 3) ++ ")"
        else forecast_summary
      base_info ++ forecast_summary
    else base_info

/-- `ReasoningEngine._format_satellite`: the "unavailable" placeholder
for a failed fetch, else the NDVI/stress/health line. -/
def format_satellite : Option FieldAnalytics → String
  | none => "Satellite unavailable."
  | some s =>
    "NDVI: " ++ toString s.ndvi_current ++ ", WaterStress: " ++
    s.water_stress_level ++ ", Health: " ++ s.relative_performance

/-- `ReasoningEngine._format_rag` (the join separator in the source is
the literal two-character sequence backslash-n). -/
def format_rag (results : List SearchResult) : String :=
  if results = [] then "No research found."
  else String.intercalate "\x5cn"
    (results.map (fun r => "- " ++ r.text ++ " [Source: " ++ r.source ++ "]"))

/-- `ReasoningEngine._format_market`. -/
def format_market : Option MarketData → String
  | none => "Market unavailable."
  | some m =>
    if !m.available then "Market unavailable."
    else m.commodity ++ ": $" ++ toString m.price ++ " / " ++ m.unit ++
      " (Trend: " ++ m.trend ++ ")"

/-- `ReasoningEngine._format_chemicals`. -/
def format_chemicals (chems : List Chemical) : String :=
  if chems = [] then "No chemicals found."
  else String.intercalate "\x5cn"
    (chems.map (fun c => "- " ++ c.product_name ++ " (" ++ c.active_ingredient ++
      ") Rate: " ++ c.rate ++ " REI: " ++ c.rei))

/-- `ReasoningEngine._lookup_chemicals`: filter the static dataset by
crop membership and pest/product-name substring match, first 3 hits. -/
def lookup_chemicals (chemicals : List Chemical) (query crop : String) : List Chemical :=
  let q_lower := pyLower query
  let crop_lower := pyLower crop
  (chemicals.filter (fun chem =>
    !(crop_lower ≠ "unknown" && !(chem.crops.contains crop_lower)) &&
    (chem.pests.any (fun p => hasSub q_lower p) ||
      hasSub q_lower (pyLower chem.product_name)))).take 3

/-- `ReasoningEngine._create_ask_response`: terminal clarifying
question, "?" appended when missing; all three text fields equal the
question, sources empty, query echoed as "". -/
def create_ask_response (intent : Intent) (question : String) (ts : String) : AgentResponse :=
  let question :=
    if !(pyEndsWith (pyStrip question) "?") then pyStrip question ++ "?" else question
  { voice_response := question, voice_summary := question,
    full_response := question, sources := [],
    crop := intent.crop, query := "", timestamp := ts }

/-- Caller-facing request shape (`process_query` keyword arguments). -/
structure QueryInput where
  query : String
  lat : Option ℚ := none
  lon : Option ℚ := none
  crop : Option String := none
  session_id : String := "default"

/-- The kinds of asynchronous data-fetch operations the dispatcher can
issue (`tasks` list, lines 169-184). -/
inductive FetchKind
  | weather
  | satellite
  | knowledge
  | market
  | gdd
  deriving Repr, DecidableEq

/-- The value carried by one completed fetch task (the heterogeneous
entries of the gathered `results` list). -/
inductive FetchVal
  | weatherv (w : WeatherData)
  | satellitev (s : FieldAnalytics)
  | ragv (rs : List SearchResult)
  | marketv (m : MarketData)
  | gddv (g : ℚ)

/-- Outcomes the external data sources would deliver for this turn: for
each fetch, either its value or the exception it raises. -/
structure FetchEnv where
  weather : Except String WeatherData
  satellite : Except String FieldAnalytics
  rag : Except String (List SearchResult)
  market : Except String MarketData
  gdd : Except String ℚ

/-- All external-collaborator outcomes for one turn, plus the ambient
timestamp and measured processing time. -/
structure Env where
  intent : Intent
  geo : Option (ℚ × ℚ × String)
  fetch : FetchEnv
  llmGen : Except String String
  chemicals : List Chemical
  ts : String
  ptime : Int

/-- The formatted context strings handed to the synthesis step. -/
structure SynthCtx where
  weather_context : String
  satellite_context : String
  rag_context : String
  market_context : String
  chemical_context : String
  deriving Repr, DecidableEq

/-- Result of one turn: the response, the session state after the turn,
which data-fetch operations were issued, and (when the turn reached
synthesis) the context strings used. -/
structure TurnResult where
  response : AgentResponse
  session : SessionState
  issued : List FetchKind
  synth : Option SynthCtx

/-- Result of the geocoding step (lines 108-114). -/
structure GeoStep where
  lat : Option ℚ
  lon : Option ℚ
  display : Option String
  session : SessionState

/-- Crop resolution (lines 78 and 100-102): caller value if truthy,
else classifier value (default "unknown"); then the session crop when
the result is "unknown" and the session has a truthy crop. -/
def resolve_crop (callerCrop : Option String) (intentCrop : String)
    (sessionCrop : Option String) : String :=
  let extracted_crop := pyOrStrD callerCrop intentCrop
  if extracted_crop = "unknown" ∧ truthyStr sessionCrop then
    sessionCrop.getD ""
  else extracted_crop

/-- Geocoding step (lines 107-114): when the classifier extracted a
truthy address, the geocoder is consulted; on success the coordinate
and display label are overwritten and the session is updated
immediately; on failure (or no address) everything pre-seeded is kept. -/
def geocode_step (extracted_address : Option String)
    (geo : Option (ℚ × ℚ × String)) (lat0 lon0 : Option ℚ)
    (display0 : Option String) (session : SessionState) : GeoStep :=
  match extracted_address with
  | some addr =>
    if addr ≠ "" then
      match geo with
      | some (glat, glon, gname) =>
        { lat := some glat, lon := some glon, display := some gname,
          session := update_context session none (some glat) (some glon) (some gname) }
      | none => { lat := lat0, lon := lon0, display := display0, session := session }
    else { lat := lat0, lon := lon0, display := display0, session := session }
  | none => { lat := lat0, lon := lon0, display := display0, session := session }

/-- The pre-slot-filling resolved coordinate of a turn: caller value,
else session value, possibly overwritten by a successful geocode of the
classifier-extracted address. -/
def located_lat (q : QueryInput) (session : SessionState) (env : Env) : Option ℚ :=
  (geocode_step env.intent.location_address env.geo
    (pyOrQ q.lat session.lat) (pyOrQ q.lon session.lon)
    (pyOrOptStr env.intent.location_address session.location_label) session).lat

/-- Lines 151-255 of `ReasoningEngine.process_query`: everything after
the slot-filling gates — session crop write-back, last-resort location
default, display-address fallback chain, the concurrent fan-out with
per-task exception capture (`asyncio.gather(..., return_exceptions=True)`
awaits every task and yields outcomes in task order), synthesis, and
history write-back. -/
def proceed_turn (q : QueryInput) (env : Env) (session : SessionState)
    (final_crop : String) (final_lat final_lon : Option ℚ)
    (display_address : Option String)
    (question_type optimization_target : String)
    (is_regulatory : Bool) : TurnResult :=
  let session :=
    if final_crop ≠ "unknown" then
      update_context session (some final_crop) none none none
    else session
  let fallback := final_lat = none
  let final_lat := if fallback then some yolo_county_lat else final_lat
  let final_lon := if fallback then some yolo_county_lon else final_lon
  let display_address :=
    if fallback then some "Yolo County (Center)" else display_address
  let display_address :=
    pyOrStrD (pyOrOptStr display_address session.location_label) "Yolo County"
  let issueMarket :=
    hasSub question_type "market" || hasSub question_type "general" ||
    optimization_target ≠ "none"
  let issueGdd :=
    optimization_target = "time" ||
    ["harvest", "planting", "weather"].any (fun k => hasSub question_type k)
  let tasks : List (Except String FetchVal) :=
    [Except.map FetchVal.weatherv env.fetch.weather,
     Except.map FetchVal.satellitev env.fetch.satellite,
     Except.map FetchVal.ragv env.fetch.rag] ++
    (if issueMarket then [Except.map FetchVal.marketv env.fetch.market] else []) ++
    (if issueGdd then [Except.map FetchVal.gddv env.fetch.gdd] else [])
  let results := tasks
  let weather_data : Option WeatherData :=
    match results[0]? with
    | some (Except.ok (FetchVal.weatherv w)) => some w
    | _ => none
  let satellite_data : Option FieldAnalytics :=
    match results[1]? with
    | some (Except.ok (FetchVal.satellitev s)) => some s
    | _ => none
  let rag_results : List SearchResult :=
    match results[2]? with
    | some (Except.ok (FetchVal.ragv rs)) => rs
    | _ => []
  let current_idx := 3
  let market_data : Option MarketData :=
    if issueMarket then
      match results[current_idx]? with
      | some (Except.ok (FetchVal.marketv m)) => some m
      | _ => none
    else none
  let current_idx := current_idx + (if issueMarket then 1 else 0)
  let gdd_data : Option ℚ :=
    if issueGdd then
      match results[current_idx]? with
      | some (Except.ok (FetchVal.gddv g)) => some g
      | _ => none
    else none
  let chemical_data : List Chemical :=
    if hasSub question_type "chemical" || hasSub question_type "pest" || is_regulatory
    then lookup_chemicals env.chemicals q.query final_crop
    else []
  let weather_context := format_weather weather_data
  let weather_context :=
    match gdd_data with
    | some g =>
      if g ≠ 0 then
        weather_context ++ "\nGrowing Degree Days (GDD): " ++ toString g
      else weather_context
    | none => weather_context
  let ctx : SynthCtx :=
    { weather_context := weather_context,
      satellite_context := format_satellite satellite_data,
      rag_context := format_rag rag_results,
      market_context := format_market market_data,
      chemical_context := format_chemicals chemical_data }
  let llm_resp := generate_agricultural_response env.llmGen q.query final_crop
    ctx.weather_context ctx.satellite_context ctx.rag_context
    none (some ctx.market_context) (some ctx.chemical_context) session.history
  let session := add_message session "user" q.query env.ts
  let session := add_message session "assistant" llm_resp.voice_summary env.ts
  let rag_source_names := rag_results.map (fun r => r.source)
  let combined_sources := (llm_resp.sources ++ rag_source_names).dedup
  { response :=
      { voice_response := llm_resp.voice_summary,
        voice_summary := llm_resp.voice_summary,
        full_response := llm_resp.text,
        sources := combined_sources,
        weather_data := weather_data,
        satellite_data := satellite_data,
        rag_results := some rag_results,
        market_data := market_data,
        chemical_data := some chemical_data,
        crop := final_crop,
        location_address := some display_address,
        lat := final_lat,
        lon := final_lon,
        query := q.query,
        timestamp := env.ts,
        processing_time_ms := env.ptime },
    session := session,
    issued :=
      [FetchKind.weather, FetchKind.satellite, FetchKind.knowledge] ++
      (if issueMarket then [FetchKind.market] else []) ++
      (if issueGdd then [FetchKind.gdd] else []),
    synth := some ctx }

/-- `ReasoningEngine.process_query`: the full turn — non-agricultural
refusal, context merging, geocoding, the two slot-filling gates, then
`proceed_turn`. Short-circuited turns issue no fetch (`issued = []`)
and reach no synthesis (`synth = none`). -/
def process_query (q : QueryInput) (session : SessionState) (env : Env) : TurnResult :=
  let intent := env.intent
  if !intent.is_agricultural then
    { response :=
        { voice_response := refusal_text, voice_summary := refusal_text,
          full_response := refusal_text, sources := [],
          query := q.query, timestamp := env.ts,
          processing_time_ms := env.ptime, crop := "N/A",
          location_address := some "N/A", lat := some 0, lon := some 0 },
      session := session, issued := [], synth := none }
  else
    let final_crop := resolve_crop q.crop intent.crop session.crop
    let lat0 := pyOrQ q.lat session.lat
    let lon0 := pyOrQ q.lon session.lon
    let display0 := pyOrOptStr intent.location_address session.location_label
    let g := geocode_step intent.location_address env.geo lat0 lon0 display0 session
    let question_type := intent.question_type
    let optimization_target := intent.optimization_target
    if g.lat = none ∧ optimization_target ≠ "location" ∧
        ¬ hasSub question_type "general" then
      { response := create_ask_response intent
          "I need to know which field or address you are referring to for accurate analysis." env.ts,
        session := g.session, issued := [], synth := none }
    else
      let useCenter := g.lat = none ∧ optimization_target = "location"
      let final_lat := if useCenter then some yolo_county_lat else g.lat
      let final_lon := if useCenter then some yolo_county_lon else g.lon
      let display_address :=
        if useCenter then some "Yolo County (General)" else g.display
      let is_regulatory :=
        hasSub (pyLower q.query) "permit" || hasSub question_type "regulatory"
      if final_crop = "unknown" ∧ ¬ is_regulatory ∧
          ¬ hasSub question_type "general" ∧ optimization_target = "none" then
        { response := create_ask_response intent
            "Which crop are you asking about? (Almonds, Walnuts, Tomatoes, etc.)" env.ts,
          session := g.session, issued := [], synth := none }
      else
        proceed_turn q env g.session final_crop final_lat final_lon
          display_address question_type optimization_target is_regulatory

/-! ## Basic lemmas about the session store -/

theorem consolidate_crop_key_facts (s : SessionState) (c : Option String) :
    (consolidate_crop s c).key_facts = s.key_facts := by
  cases c with
  | none => rfl
  | some c =>
    show (if c ≠ "" ∧ pyLower c ≠ "unknown" then { s with crop := some c } else s).key_facts = s.key_facts
    split <;> rfl

theorem consolidate_crop_advisor_points (s : SessionState) (c : Option String) :
    (consolidate_crop s c).advisor_points = s.advisor_points := by
  cases c with
  | none => rfl
  | some c =>
    show (if c ≠ "" ∧ pyLower c ≠ "unknown" then { s with crop := some c } else s).advisor_points = s.advisor_points
    split <;> rfl

theorem consolidate_crop_history (s : SessionState) (c : Option String) :
    (consolidate_crop s c).history = s.history := by
  cases c with
  | none => rfl
  | some c =>
    show (if c ≠ "" ∧ pyLower c ≠ "unknown" then { s with crop := some c } else s).history = s.history
    split <;> rfl

theorem consolidate_label_key_facts (s : SessionState) (lb : Option String) :
    (consolidate_label s lb).key_facts = s.key_facts := by
  cases lb with
  | none => rfl
  | some lb =>
    show (if lb ≠ "" then { s with location_label := some lb } else s).key_facts = s.key_facts
    split <;> rfl

theorem consolidate_label_advisor_points (s : SessionState) (lb : Option String) :
    (consolidate_label s lb).advisor_points = s.advisor_points := by
  cases lb with
  | none => rfl
  | some lb =>
    show (if lb ≠ "" then { s with location_label := some lb } else s).advisor_points = s.advisor_points
    split <;> rfl

theorem consolidate_label_history (s : SessionState) (lb : Option String) :
    (consolidate_label s lb).history = s.history := by
  cases lb with
  | none => rfl
  | some lb =>
    show (if lb ≠ "" then { s with location_label := some lb } else s).history = s.history
    split <;> rfl

theorem length_takeLast (n : Nat) (l : List α) :
    (takeLast n l).length = min l.length n := by
  simp only [takeLast, List.length_drop]
  omega

theorem takeLast_suffix (n : Nat) (l : List α) : takeLast n l <:+ l :=
  List.drop_suffix _ _

theorem nodup_takeLast (n : Nat) {l : List String} (h : l.Nodup) :
    (takeLast n l).Nodup :=
  h.sublist (takeLast_suffix n l).sublist

theorem nodup_appendUnique {l : List String} (x : String) (h : l.Nodup) :
    (appendUnique l x).Nodup := by
  unfold appendUnique
  split
  · exact h
  · next hx => simp [List.nodup_append, h, hx]

theorem nodup_foldl_appendUnique (xs : List String) :
    ∀ l : List String, l.Nodup → (xs.foldl appendUnique l).Nodup := by
  induction xs with
  | nil => intro l h; simpa using h
  | cons x xs ih =>
    intro l h
    simpa using ih (appendUnique l x) (nodup_appendUnique x h)

/-- The session invariant of §8 of the spec: bounded history and
memory lists, duplicate-free memory lists. -/
def SessionInv (s : SessionState) : Prop :=
  s.history.length ≤ 30 ∧ s.key_facts.length ≤ 10 ∧
  s.advisor_points.length ≤ 10 ∧ s.key_facts.Nodup ∧ s.advisor_points.Nodup

theorem sessionInv_add_message {s : SessionState} (h : SessionInv s)
    (role content ts : String) : SessionInv (add_message s role content ts) := by
  obtain ⟨h1, h2, h3, h4, h5⟩ := h
  refine ⟨?_, h2, h3, h4, h5⟩
  simp only [add_message]
  split
  · rw [length_takeLast]; omega
  · next hle => simp only [List.length_append, List.length_cons, List.length_nil] at hle ⊢; omega

theorem sessionInv_update_memory {s : SessionState} (h : SessionInv s)
    (u a : String) (c lb : Option String) :
    SessionInv (update_memory s u a c lb) := by
  obtain ⟨h1, h2, h3, h4, h5⟩ := h
  unfold update_memory
  refine ⟨?_, ?_, ?_, ?_, ?_⟩
  · simp only [consolidate_label_history, consolidate_crop_history]; exact h1
  · rw [length_takeLast]; omega
  · rw [length_takeLast]; omega
  · refine nodup_takeLast _ (nodup_foldl_appendUnique _ _ ?_)
    rw [consolidate_label_key_facts, consolidate_crop_key_facts]; exact h4
  · refine nodup_takeLast _ (nodup_foldl_appendUnique _ _ ?_)
    rw [consolidate_label_advisor_points, consolidate_crop_advisor_points]; exact h5

theorem sessionInv_applySessionOp {s : SessionState} (h : SessionInv s)
    (op : SessionOp) : SessionInv (applySessionOp s op) := by
  cases op with
  | addMsg r c t => exact sessionInv_add_message h r c t
  | updMemory u a c lb => exact sessionInv_update_memory h u a c lb

theorem sessionInv_empty (sid : String) : SessionInv (SessionState.empty sid) := by
  refine ⟨?_, ?_, ?_, ?_, ?_⟩ <;> simp [SessionState.empty]

/-- Claim C4: after any number of message-append and memory-update
operations on a session (sessions are created empty), the invariant
holds: history has at most 30 entries, key facts and advisor points at
most 10 each and without duplicates; and whenever a bound forces
truncation, the kept list is a suffix of the accumulated one, so the
oldest entries are removed first and the most recent are kept. -/
theorem claim_C4_session_invariant :
    (∀ (sid : String) (ops : List SessionOp),
      SessionInv (applySessionOps (SessionState.empty sid) ops)) ∧
    (∀ (s : SessionState) (role content ts : String),
      (add_message s role content ts).history <:+
        s.history ++ [⟨role, content, ts⟩]) ∧
    (∀ (s : SessionState) (u a : String) (c lb : Option String),
      (update_memory s u a c lb).key_facts <:+
        (extract_key_facts u).foldl appendUnique s.key_facts ∧
      (update_memory s u a c lb).advisor_points <:+
        (extract_advisor_points a).foldl appendUnique s.advisor_points) := by
  refine ⟨?_, ?_, ?_⟩
  · intro sid ops
    suffices hgen : ∀ (ops : List SessionOp) (s : SessionState), SessionInv s →
        SessionInv (applySessionOps s ops) by
      exact hgen ops _ (sessionInv_empty sid)
    intro ops
    induction ops with
    | nil => intro s h; exact h
    | cons op ops ih =>
      intro s h
      exact ih _ (sessionInv_applySessionOp h op)
  · intro s role content ts
    simp only [add_message]
    split
    · exact takeLast_suffix _ _
    · exact List.suffix_refl _
  · intro s u a c lb
    unfold update_memory
    constructor
    · simp only [consolidate_label_key_facts, consolidate_crop_key_facts]
      exact takeLast_suffix _ _
    · simp only [consolidate_label_advisor_points, consolidate_crop_advisor_points]
      exact takeLast_suffix _ _

/-! ## Fixtures for concrete witnesses and counterexamples -/

/-- A fetch environment in which every data source raises. -/
def fetchAllFail : FetchEnv :=
  { weather := Except.error "weather down",
    satellite := Except.error "gee down",
    rag := Except.error "vector store down",
    market := Except.error "market down",
    gdd := Except.error "gdd down" }

/-- A well-formed tagged generation output. -/
def okGeneration : String :=
  "<voice_summary>Irrigate early.</voice_summary>\n<full_response>Irrigate before the heat wave. [Source: UC ANR]</full_response>\n<sources>UC ANR</sources>"

/-- A baseline agricultural intent used by concrete runs. -/
def intentBase : Intent :=
  { crop := "unknown", question_type := "irrigation",
    optimization_target := "none", location_address := none,
    is_agricultural := true, urgency := "planning", keywords := [] }

/-- Claim C5: when the classified intent is non-agricultural, the turn
terminates immediately with the fixed refusal text in all three text
fields, an empty sources list, no issued data fetch and no synthesis. -/
theorem claim_C5_non_agricultural (q : QueryInput) (s : SessionState)
    (env : Env) (h : env.intent.is_agricultural = false) :
    (process_query q s env).response.voice_response = refusal_text ∧
    (process_query q s env).response.voice_summary = refusal_text ∧
    (process_query q s env).response.full_response = refusal_text ∧
    (process_query q s env).response.sources = [] ∧
    (process_query q s env).issued = [] ∧
    (process_query q s env).synth = none := by
  simp [process_query, h]

/-- Witness for claim C5 at a concrete non-agricultural query. -/
theorem claim_C5_witness :
    (process_query { query := "what is 2+2" } (SessionState.empty "d")
      { intent := { intentBase with is_agricultural := false },
        geo := none, fetch := fetchAllFail, llmGen := Except.error "n/a",
        chemicals := [], ts := "t0", ptime := 1 }).response.voice_response = refusal_text ∧
    (process_query { query := "what is 2+2" } (SessionState.empty "d")
      { intent := { intentBase with is_agricultural := false },
        geo := none, fetch := fetchAllFail, llmGen := Except.error "n/a",
        chemicals := [], ts := "t0", ptime := 1 }).response.voice_summary = refusal_text ∧
    (process_query { query := "what is 2+2" } (SessionState.empty "d")
      { intent := { intentBase with is_agricultural := false },
        geo := none, fetch := fetchAllFail, llmGen := Except.error "n/a",
        chemicals := [], ts := "t0", ptime := 1 }).response.full_response = refusal_text ∧
    (process_query { query := "what is 2+2" } (SessionState.empty "d")
      { intent := { intentBase with is_agricultural := false },
        geo := none, fetch := fetchAllFail, llmGen := Except.error "n/a",
        chemicals := [], ts := "t0", ptime := 1 }).response.sources = [] ∧
    (process_query { query := "what is 2+2" } (SessionState.empty "d")
      { intent := { intentBase with is_agricultural := false },
        geo := none, fetch := fetchAllFail, llmGen := Except.error "n/a",
        chemicals := [], ts := "t0", ptime := 1 }).issued = [] ∧
    (process_query { query := "what is 2+2" } (SessionState.empty "d")
      { intent := { intentBase with is_agricultural := false },
        geo := none, fetch := fetchAllFail, llmGen := Except.error "n/a",
        chemicals := [], ts := "t0", ptime := 1 }).synth = none :=
  claim_C5_non_agricultural _ _ _ rfl

/-- Claim C10: a caller-supplied latitude or longitude of 0, or a
caller-supplied empty crop string, is falsy under the `or`-based merge,
so the whole turn behaves exactly as if the caller had not supplied the
value at all — it falls back to the session-stored value. -/
theorem claim_C10_truthiness_boundary :
    (∀ (q : QueryInput) (s : SessionState) (env : Env),
      process_query { q with lat := some 0 } s env =
        process_query { q with lat := none } s env) ∧
    (∀ (q : QueryInput) (s : SessionState) (env : Env),
      process_query { q with lon := some 0 } s env =
        process_query { q with lon := none } s env) ∧
    (∀ (q : QueryInput) (s : SessionState) (env : Env),
      process_query { q with crop := some "" } s env =
        process_query { q with crop := none } s env) ∧
    (∀ b : Option ℚ, pyOrQ (some 0) b = b ∧ pyOrQ none b = b) := by
  refine ⟨fun q s env => rfl, fun q s env => rfl, fun q s env => rfl,
    fun b => ⟨rfl, rfl⟩⟩

/-- Claim C7 (amended): when the generation call raises, the error is
not propagated — the result is exactly what a successful generation of
the deterministic fallback text (built from the already-fetched
weather, satellite and knowledge context strings) would produce, with
the normal response shape; its confidence indicator is 9/10, the same
value a successful generation receives, not a lower one. -/
theorem claim_C7_generation_failure_fallback
    (msg query crop wctx sctx rctx : String) (ec mc cc : Option String)
    (hist : List Message) :
    generate_agricultural_response (Except.error msg) query crop wctx sctx rctx ec mc cc hist =
      generate_agricultural_response
        (Except.ok (fallback_response_text crop wctx sctx rctx))
        query crop wctx sctx rctx ec mc cc hist ∧
    (generate_agricultural_response (Except.error msg) query crop wctx sctx rctx ec mc cc hist).confidence = 9 / 10 :=
  ⟨rfl, rfl⟩

/-- Claim C7 counterexample: at a concrete failing generation the
confidence equals — is not lower than — the confidence of a successful
generation with the same inputs. -/
theorem claim_C7_counterexample :
    (generate_agricultural_response (Except.error "connection reset") "q"
      "almonds" "Temp: 20C" "NDVI: 0.5" "No research found."
      none none none []).confidence =
      (generate_agricultural_response (Except.ok okGeneration) "q"
        "almonds" "Temp: 20C" "NDVI: 0.5" "No research found."
        none none none []).confidence ∧
    ¬ ((generate_agricultural_response (Except.error "connection reset") "q"
      "almonds" "Temp: 20C" "NDVI: 0.5" "No research found."
      none none none []).confidence <
      (generate_agricultural_response (Except.ok okGeneration) "q"
        "almonds" "Temp: 20C" "NDVI: 0.5" "No research found."
        none none none []).confidence) := by
  have h1 : (generate_agricultural_response (Except.error "connection reset") "q"
      "almonds" "Temp: 20C" "NDVI: 0.5" "No research found."
      none none none []).confidence = 9 / 10 := rfl
  have h2 : (generate_agricultural_response (Except.ok okGeneration) "q"
      "almonds" "Temp: 20C" "NDVI: 0.5" "No research found."
      none none none []).confidence = 9 / 10 := rfl
  rw [h1, h2]
  exact ⟨rfl, by norm_num⟩

/-- A generation output whose sources block lists one source per line,
exactly as the system prompt instructs. -/
def perLineGeneration : String :=
  "<voice_summary>V</voice_summary>\n<full_response>F</full_response>\n<sources>\nUC IPM - Grapes\nFarm Advisor Notes\n</sources>"

set_option maxRecDepth 16000 in
set_option maxHeartbeats 2000000 in
/-- Claim C8 (code bug): the system prompt asks for one cited source
per line, but the parser splits the block on the literal two-character
sequence backslash-n instead of on newline, so a newline-separated
block is returned as a single entry containing the newline instead of
one entry per line. -/
theorem claim_C8_sources_split_bug :
    (generate_agricultural_response (Except.ok perLineGeneration) "q"
      "grapes" "W" "S" "R" none none none []).sources =
      ["UC IPM - Grapes\nFarm Advisor Notes"] ∧
    (generate_agricultural_response (Except.ok perLineGeneration) "q"
      "grapes" "W" "S" "R" none none none []).sources ≠
      ["UC IPM - Grapes", "Farm Advisor Notes"] := by
  constructor
  · rfl
  · decide


/-! ## Crop resolution and slot-filling claims -/

theorem add_message_crop (s : SessionState) (r c t : String) :
    (add_message s r c t).crop = s.crop := rfl

theorem add_message_lat (s : SessionState) (r c t : String) :
    (add_message s r c t).lat = s.lat := rfl

theorem add_message_lon (s : SessionState) (r c t : String) :
    (add_message s r c t).lon = s.lon := rfl

theorem add_message_location_label (s : SessionState) (r c t : String) :
    (add_message s r c t).location_label = s.location_label := rfl

theorem update_context_crop_some (s : SessionState) (c : String)
    (hne : c ≠ "") (hnu : pyLower c ≠ "unknown") (la lo : Option ℚ)
    (lb : Option String) :
    (update_context s (some c) la lo lb).crop = some c := by
  have hc : consolidate_crop s (some c) = { s with crop := some c } := by
    show (if c ≠ "" ∧ pyLower c ≠ "unknown" then { s with crop := some c } else s) =
      { s with crop := some c }
    rw [if_pos ⟨hne, hnu⟩]
  unfold update_context
  rw [hc]
  cases la with
  | none => rfl
  | some la =>
    cases lo with
    | none => rfl
    | some lo =>
      cases lb with
      | none => rfl
      | some lb =>
        dsimp only
        split <;> rfl

theorem consolidate_crop_lat (s : SessionState) (c : Option String) :
    (consolidate_crop s c).lat = s.lat := by
  cases c with
  | none => rfl
  | some c =>
    show (if c ≠ "" ∧ pyLower c ≠ "unknown" then { s with crop := some c } else s).lat = s.lat
    split <;> rfl

theorem consolidate_crop_lon (s : SessionState) (c : Option String) :
    (consolidate_crop s c).lon = s.lon := by
  cases c with
  | none => rfl
  | some c =>
    show (if c ≠ "" ∧ pyLower c ≠ "unknown" then { s with crop := some c } else s).lon = s.lon
    split <;> rfl

theorem consolidate_crop_location_label (s : SessionState) (c : Option String) :
    (consolidate_crop s c).location_label = s.location_label := by
  cases c with
  | none => rfl
  | some c =>
    show (if c ≠ "" ∧ pyLower c ≠ "unknown" then { s with crop := some c } else s).location_label = s.location_label
    split <;> rfl

theorem update_context_coord_none (s : SessionState) (c : Option String) :
    (update_context s c none none none).lat = s.lat ∧
    (update_context s c none none none).lon = s.lon ∧
    (update_context s c none none none).location_label = s.location_label := by
  unfold update_context
  exact ⟨consolidate_crop_lat s c, consolidate_crop_lon s c,
    consolidate_crop_location_label s c⟩

theorem resolve_crop_caller {c : String} (hne : c ≠ "") (hnu : c ≠ "unknown")
    (ic : String) (sc : Option String) : resolve_crop (some c) ic sc = c := by
  simp [resolve_crop, pyOrStrD, hne, hnu]

theorem resolve_crop_intent {ic : String} (hic : ic ≠ "unknown")
    (sc : Option String) : resolve_crop none ic sc = ic := by
  simp [resolve_crop, pyOrStrD, hic]

theorem resolve_crop_session {sc : String} (hsc : sc ≠ "") :
    resolve_crop none "unknown" (some sc) = sc := by
  simp [resolve_crop, pyOrStrD, truthyStr, hsc]

/-- Claim C2: crop precedence — a truthy, non-"unknown" caller crop
always wins; otherwise the classifier crop when it is not "unknown";
otherwise the truthy session crop; otherwise "unknown". In particular,
in any turn that reaches synthesis with session crop "almonds" and
caller crop "walnuts", the response crop is "walnuts" and the session
crop is updated to "walnuts". -/
theorem claim_C2_crop_precedence :
    (∀ (c ic : String) (sc : Option String), c ≠ "" → c ≠ "unknown" →
      resolve_crop (some c) ic sc = c) ∧
    (∀ (ic : String) (sc : Option String), ic ≠ "unknown" →
      resolve_crop none ic sc = ic) ∧
    (∀ sc : String, sc ≠ "" → resolve_crop none "unknown" (some sc) = sc) ∧
    resolve_crop none "unknown" none = "unknown" ∧
    (∀ (q : QueryInput) (s : SessionState) (env : Env),
      q.crop = some "walnuts" → s.crop = some "almonds" →
      (process_query q s env).synth ≠ none →
      (process_query q s env).response.crop = "walnuts" ∧
      (process_query q s env).session.crop = some "walnuts") := by
  refine ⟨fun c ic sc hne hnu => resolve_crop_caller hne hnu ic sc,
    fun ic sc hic => resolve_crop_intent hic sc,
    fun sc hsc => resolve_crop_session hsc, rfl, ?_⟩
  intro q s env hq hs hsynth
  have hcrop : resolve_crop q.crop env.intent.crop s.crop = "walnuts" := by
    rw [hq]
    exact resolve_crop_caller (by decide) (by decide) _ _
  revert hsynth
  simp only [process_query]
  split
  · intro hsynth; exact absurd rfl hsynth
  · rw [hcrop]
    split
    · intro hsynth; exact absurd rfl hsynth
    · split
      · next hcond => exact absurd hcond.1 (by decide)
      · intro _
        unfold proceed_turn
        constructor
        · rfl
        · show (add_message (add_message (update_context _ (some "walnuts") none none none) _ _ _) _ _ _).crop = some "walnuts"
          rw [add_message_crop, add_message_crop]
          exact update_context_crop_some _ _ (by decide) (by decide) _ _ _


/-- Session fixture holding crop "almonds" and a coordinate. -/
def sessionAlmonds : SessionState :=
  { SessionState.empty "d" with
      crop := some "almonds", lat := some 38, lon := some (-121) }

/-- Request fixture with an explicit caller crop "walnuts". -/
def qWalnuts : QueryInput :=
  { query := "what are prices like", crop := some "walnuts",
    lat := some 38, lon := some (-121) }

/-- Environment fixture for concrete completed turns: agricultural
irrigation intent, no geocode hit, all fetches failing, a trivial
generation output. -/
def envPlain : Env :=
  { intent := intentBase, geo := none, fetch := fetchAllFail,
    llmGen := Except.ok "x", chemicals := [], ts := "t", ptime := 3 }

/-- Witness for claim C2: caller "walnuts" beats both the classifier
and the stored "almonds", and a concrete completed turn updates the
session crop. -/
theorem claim_C2_witness :
    resolve_crop (some "walnuts") "unknown" (some "almonds") = "walnuts" ∧
    (process_query qWalnuts sessionAlmonds envPlain).response.crop = "walnuts" ∧
    (process_query qWalnuts sessionAlmonds envPlain).session.crop = some "walnuts" :=
  ⟨claim_C2_crop_precedence.1 "walnuts" "unknown" (some "almonds") (by decide) (by decide),
   (claim_C2_crop_precedence.2.2.2.2 qWalnuts sessionAlmonds envPlain rfl rfl
     (by decide)).1,
   (claim_C2_crop_precedence.2.2.2.2 qWalnuts sessionAlmonds envPlain rfl rfl
     (by decide)).2⟩

/-- Claim C6 (amended): for an agricultural query with unknown resolved
crop, no "permit" mention, a question type containing neither
"regulatory" nor "general", optimization target "none", AND an
available resolved coordinate, the turn terminates before any fetch
with the clarifying crop question: all three text fields equal the
question, it ends in "?", sources are empty, nothing is issued, no
synthesis happens. (Without the coordinate, the location gate fires
first and asks the location question instead — see the
counterexample.) -/
theorem claim_C6_crop_question (q : QueryInput) (s : SessionState) (env : Env)
    (hag : env.intent.is_agricultural = true)
    (hcrop : resolve_crop q.crop env.intent.crop s.crop = "unknown")
    (hpermit : hasSub (pyLower q.query) "permit" = false)
    (hreg : hasSub env.intent.question_type "regulatory" = false)
    (hgen : hasSub env.intent.question_type "general" = false)
    (hopt : env.intent.optimization_target = "none")
    (hloc : located_lat q s env ≠ none) :
    (process_query q s env).response.voice_response =
      "Which crop are you asking about? (Almonds, Walnuts, Tomatoes, etc.)?" ∧
    (process_query q s env).response.full_response =
      (process_query q s env).response.voice_response ∧
    (process_query q s env).response.voice_summary =
      (process_query q s env).response.voice_response ∧
    pyEndsWith (process_query q s env).response.voice_response "?" = true ∧
    (process_query q s env).response.sources = [] ∧
    (process_query q s env).issued = [] ∧
    (process_query q s env).synth = none := by
  simp only [process_query]
  split
  · next hb => rw [hag] at hb; exact absurd hb (by decide)
  · split
    · next hcond => exact absurd hcond.1 hloc
    · split
      · exact ⟨rfl, rfl, rfl, rfl, rfl, rfl, rfl⟩
      · next hcond =>
        exact absurd ⟨hcrop, by simp [hpermit, hreg], by simp [hgen], hopt⟩ hcond

/-- Session fixture with a coordinate but no crop. -/
def sessionLocated : SessionState :=
  { SessionState.empty "d" with lat := some 38, lon := some (-121) }

/-- Request fixture: pest question, no caller crop or coordinate. -/
def qAphids : QueryInput := { query := "how to treat aphids" }

/-- Witness for claim C6 at a concrete located, crop-less query. -/
theorem claim_C6_witness :
    (process_query qAphids sessionLocated envPlain).response.voice_response =
      "Which crop are you asking about? (Almonds, Walnuts, Tomatoes, etc.)?" ∧
    (process_query qAphids sessionLocated envPlain).issued = [] :=
  ⟨(claim_C6_crop_question qAphids sessionLocated envPlain rfl (by decide)
      (by decide) (by decide) (by decide) rfl (by decide)).1,
   (claim_C6_crop_question qAphids sessionLocated envPlain rfl (by decide)
      (by decide) (by decide) (by decide) rfl (by decide)).2.2.2.2.2.1⟩

/-- Claim C6 counterexample: a query meeting every condition of the
claim as stated (unknown crop, no "permit", question type without
"regulatory"/"general", optimization target "none") but with no
location available terminates with the clarifying LOCATION question,
not the crop question the claim promises. -/
theorem claim_C6_counterexample :
    (process_query qAphids (SessionState.empty "d") envPlain).response.voice_response =
      "I need to know which field or address you are referring to for accurate analysis.?" ∧
    (process_query qAphids (SessionState.empty "d") envPlain).response.voice_response ≠
      "Which crop are you asking about? (Almonds, Walnuts, Tomatoes, etc.)?" := by
  constructor
  · rfl
  · decide


/-! ## Fan-out partial-failure claim -/

/-- Claim C1: in every turn that reaches the fan-out phase (i.e.
synthesis happens), the weather, satellite and knowledge fetches are
all issued and each captured outcome is consumed independently: a
satellite exception leaves `satellite_data` null and puts the
"Satellite unavailable." placeholder into the synthesis context, while
a succeeding weather fetch still lands in `weather_data`, succeeding
knowledge results still land in `rag_results` and in the knowledge
context, and a failing market fetch only nulls `market_data`; the turn
still returns a normal completed response. -/
theorem claim_C1_partial_failure (q : QueryInput) (s : SessionState)
    (env : Env) (ctx : SynthCtx)
    (h : (process_query q s env).synth = some ctx) :
    (FetchKind.weather ∈ (process_query q s env).issued ∧
     FetchKind.satellite ∈ (process_query q s env).issued ∧
     FetchKind.knowledge ∈ (process_query q s env).issued) ∧
    (∀ e, env.fetch.satellite = Except.error e →
      (process_query q s env).response.satellite_data = none ∧
      ctx.satellite_context = "Satellite unavailable.") ∧
    (∀ w, env.fetch.weather = Except.ok w →
      (process_query q s env).response.weather_data = some w) ∧
    (∀ rs, env.fetch.rag = Except.ok rs →
      (process_query q s env).response.rag_results = some rs ∧
      ctx.rag_context = format_rag rs) ∧
    (∀ e, env.fetch.market = Except.error e →
      (process_query q s env).response.market_data = none) := by
  revert h
  simp only [process_query]
  split
  · intro h; exact absurd h (by simp)
  · split
    · intro h; exact absurd h (by simp)
    · split
      · intro h; exact absurd h (by simp)
      · simp only [proceed_turn]
        intro h
        obtain rfl := Option.some.inj h
        refine ⟨⟨?_, ?_, ?_⟩, ?_, ?_, ?_, ?_⟩
        · simp
        · simp
        · simp
        · intro e he
          constructor
          · simp [he, Except.map, List.cons_append, List.nil_append]
          · simp [he, Except.map, List.cons_append, List.nil_append,
              format_satellite]
        · intro w hw
          simp [hw, Except.map, List.cons_append, List.nil_append]
        · intro rs hr
          constructor
          · simp [hr, Except.map, List.cons_append, List.nil_append]
          · simp [hr, Except.map, List.cons_append, List.nil_append]
        · intro e he
          split
          · next hm =>
            simp [he, hm, Except.map, List.cons_append, List.nil_append]
          · rfl

/-- A plain current-conditions weather snapshot with no forecast. -/
def wxPlain : WeatherData :=
  { timestamp := "ts", latitude := 38, longitude := -121,
    temperature_c := 20, relative_humidity := 50, precipitation_mm := 0,
    wind_speed_kmh := 10, wind_direction := 180,
    soil_moisture_0_7cm := 1, soil_moisture_7_28cm := 1,
    soil_moisture_28_100cm := 1, reference_evapotranspiration := 3,
    spray_drift_risk := "low", fungal_risk := "low", forecast := [] }

/-- Fetch outcomes: weather and knowledge succeed, satellite (and the
conditional fetches) raise. -/
def fetchSatFail : FetchEnv :=
  { weather := Except.ok wxPlain, satellite := Except.error "gee down",
    rag := Except.ok [], market := Except.error "market down",
    gdd := Except.error "gdd down" }

/-- Environment where only the satellite fetch fails. -/
def envSatFail : Env := { envPlain with fetch := fetchSatFail }

/-- Witness for claim C1 at a concrete turn whose satellite fetch
raises while weather and knowledge succeed. -/
theorem claim_C1_witness :
    (process_query qWalnuts sessionAlmonds envSatFail).response.satellite_data = none ∧
    (process_query qWalnuts sessionAlmonds envSatFail).response.weather_data = some wxPlain ∧
    FetchKind.satellite ∈ (process_query qWalnuts sessionAlmonds envSatFail).issued := by
  have hs : ((process_query qWalnuts sessionAlmonds envSatFail).synth).isSome = true := by
    decide
  have h : (process_query qWalnuts sessionAlmonds envSatFail).synth =
      some ((process_query qWalnuts sessionAlmonds envSatFail).synth.get hs) :=
    (Option.some_get hs).symm
  exact ⟨((claim_C1_partial_failure qWalnuts sessionAlmonds envSatFail _ h).2.1
      "gee down" rfl).1,
    (claim_C1_partial_failure qWalnuts sessionAlmonds envSatFail _ h).2.2.1
      wxPlain rfl,
    (claim_C1_partial_failure qWalnuts sessionAlmonds envSatFail _ h).1.2.1⟩


theorem pyOrOptStr_some {s : String} (h : s ≠ "") (b : Option String) :
    pyOrOptStr (some s) b = some s := by simp [pyOrOptStr, h]

theorem pyOrStrD_some {s : String} (h : s ≠ "") (b : String) :
    pyOrStrD (some s) b = s := by simp [pyOrStrD, h]

theorem update_context_sets_coord (s : SessionState) (c : Option String)
    (la lo : ℚ) (nm : String) (hnm : nm ≠ "") :
    (update_context s c (some la) (some lo) (some nm)).lat = some la ∧
    (update_context s c (some la) (some lo) (some nm)).lon = some lo ∧
    (update_context s c (some la) (some lo) (some nm)).location_label = some nm := by
  have key : update_context s c (some la) (some lo) (some nm) =
      { consolidate_crop s c with
          lat := some la, lon := some lo, location_label := some nm } := by
    unfold update_context
    dsimp only
    rw [if_pos hnm]
  rw [key]
  exact ⟨rfl, rfl, rfl⟩

theorem geocode_step_success {a : String} (ha : a ≠ "") (la lo : ℚ)
    (nm : String) (lat0 lon0 : Option ℚ) (display0 : Option String)
    (t : SessionState) :
    geocode_step (some a) (some (la, lo, nm)) lat0 lon0 display0 t =
      { lat := some la, lon := some lo, display := some nm,
        session := update_context t none (some la) (some lo) (some nm) } := by
  unfold geocode_step
  dsimp only
  rw [if_pos ha]

theorem geocode_step_fail {a : String} (ha : a ≠ "") (lat0 lon0 : Option ℚ)
    (display0 : Option String) (t : SessionState) :
    geocode_step (some a) none lat0 lon0 display0 t =
      { lat := lat0, lon := lon0, display := display0, session := t } := by
  unfold geocode_step
  dsimp only
  rw [if_pos ha]

theorem proceed_turn_session_coord (q : QueryInput) (env : Env)
    (t : SessionState) (fc : String) (flat flon : Option ℚ)
    (disp : Option String) (qt opt : String) (isreg : Bool) :
    (proceed_turn q env t fc flat flon disp qt opt isreg).session.lat = t.lat ∧
    (proceed_turn q env t fc flat flon disp qt opt isreg).session.lon = t.lon ∧
    (proceed_turn q env t fc flat flon disp qt opt isreg).session.location_label = t.location_label := by
  simp only [proceed_turn]
  rw [add_message_lat, add_message_lat, add_message_lon, add_message_lon,
    add_message_location_label, add_message_location_label]
  refine ⟨?_, ?_, ?_⟩
  · split
    · exact (update_context_coord_none _ _).1
    · rfl
  · split
    · exact (update_context_coord_none _ _).2.1
    · rfl
  · split
    · exact (update_context_coord_none _ _).2.2
    · rfl


theorem proceed_turn_response_lat (q : QueryInput) (env : Env)
    (t : SessionState) (fc : String) (la : ℚ) (flon : Option ℚ)
    (disp : Option String) (qt opt : String) (isreg : Bool) :
    (proceed_turn q env t fc (some la) flon disp qt opt isreg).response.lat = some la := by
  simp only [proceed_turn]
  simp

theorem proceed_turn_response_display (q : QueryInput) (env : Env)
    (t : SessionState) (fc : String) (la : ℚ) (flon : Option ℚ)
    (nm : String) (hnm : nm ≠ "") (qt opt : String) (isreg : Bool) :
    (proceed_turn q env t fc (some la) flon (some nm) qt opt isreg).response.location_address = some nm := by
  simp only [proceed_turn]
  simp [pyOrOptStr_some hnm, pyOrStrD_some hnm]

theorem claim_C3_geocode_overwrite (q : QueryInput) (s : SessionState)
    (env : Env) (a : String)
    (haddr : env.intent.location_address = some a) (ha : a ≠ "") :
    (∀ la lo nm, env.geo = some (la, lo, nm) → nm ≠ "" →
      env.intent.is_agricultural = true →
      (process_query q s env).session.lat = some la ∧
      (process_query q s env).session.lon = some lo ∧
      (process_query q s env).session.location_label = some nm ∧
      ((process_query q s env).synth ≠ none →
        (process_query q s env).response.lat = some la ∧
        (process_query q s env).response.location_address = some nm)) ∧
    (env.geo = none →
      located_lat q s env = pyOrQ q.lat s.lat ∧
      (process_query q s env).session.lat = s.lat ∧
      (process_query q s env).session.lon = s.lon ∧
      (process_query q s env).session.location_label = s.location_label) := by
  constructor
  · intro la lo nm hgeo hnm hag
    have hgs : geocode_step env.intent.location_address env.geo
        (pyOrQ q.lat s.lat) (pyOrQ q.lon s.lon)
        (pyOrOptStr env.intent.location_address s.location_label) s =
        { lat := some la, lon := some lo, display := some nm,
          session := update_context s none (some la) (some lo) (some nm) } := by
      rw [haddr, hgeo]; exact geocode_step_success ha la lo nm _ _ _ s
    simp only [process_query, hgs, hag, Bool.not_true, Bool.false_eq_true,
      if_false, reduceCtorEq, false_and, and_false]
    split
    · exact ⟨(update_context_sets_coord s none la lo nm hnm).1,
        (update_context_sets_coord s none la lo nm hnm).2.1,
        (update_context_sets_coord s none la lo nm hnm).2.2,
        fun h => absurd rfl h⟩
    · refine ⟨?_, ?_, ?_, fun _ => ⟨?_, ?_⟩⟩
      · rw [(proceed_turn_session_coord _ _ _ _ _ _ _ _ _ _).1]
        exact (update_context_sets_coord s none la lo nm hnm).1
      · rw [(proceed_turn_session_coord _ _ _ _ _ _ _ _ _ _).2.1]
        exact (update_context_sets_coord s none la lo nm hnm).2.1
      · rw [(proceed_turn_session_coord _ _ _ _ _ _ _ _ _ _).2.2]
        exact (update_context_sets_coord s none la lo nm hnm).2.2
      · exact proceed_turn_response_lat _ _ _ _ _ _ _ _ _ _
      · exact proceed_turn_response_display _ _ _ _ _ _ _ hnm _ _ _
  · intro hgeo
    have hgs : geocode_step env.intent.location_address env.geo
        (pyOrQ q.lat s.lat) (pyOrQ q.lon s.lon)
        (pyOrOptStr env.intent.location_address s.location_label) s =
        { lat := pyOrQ q.lat s.lat, lon := pyOrQ q.lon s.lon,
          display := pyOrOptStr env.intent.location_address s.location_label,
          session := s } := by
      rw [haddr, hgeo]; exact geocode_step_fail ha _ _ _ s
    refine ⟨?_, ?_⟩
    · show (geocode_step env.intent.location_address env.geo
        (pyOrQ q.lat s.lat) (pyOrQ q.lon s.lon)
        (pyOrOptStr env.intent.location_address s.location_label) s).lat = pyOrQ q.lat s.lat
      rw [hgs]
    revert hgeo
    simp only [process_query, hgs]
    intro hgeo
    split
    · exact ⟨rfl, rfl, rfl⟩
    · split
      · exact ⟨rfl, rfl, rfl⟩
      · split
        · exact ⟨rfl, rfl, rfl⟩
        · exact ⟨(proceed_turn_session_coord _ _ _ _ _ _ _ _ _ _).1,
            (proceed_turn_session_coord _ _ _ _ _ _ _ _ _ _).2.1,
            (proceed_turn_session_coord _ _ _ _ _ _ _ _ _ _).2.2⟩


theorem pyOrOptStr_none (b : Option String) : pyOrOptStr none b = b := rfl

theorem geocode_step_none (geo : Option (ℚ × ℚ × String))
    (lat0 lon0 : Option ℚ) (display0 : Option String) (t : SessionState) :
    geocode_step none geo lat0 lon0 display0 t =
      { lat := lat0, lon := lon0, display := display0, session := t } := rfl

theorem proceed_turn_response_display2 (q : QueryInput) (env : Env)
    (t : SessionState) (fc : String) (flat : Option ℚ) (hflat : flat ≠ none)
    (flon : Option ℚ) (nm : String) (hnm : nm ≠ "") (qt opt : String)
    (isreg : Bool) :
    (proceed_turn q env t fc flat flon (some nm) qt opt isreg).response.location_address = some nm := by
  simp only [proceed_turn]
  simp [hflat, pyOrOptStr_some hnm, pyOrStrD_some hnm]

theorem proceed_turn_response_display_default (q : QueryInput) (env : Env)
    (t : SessionState) (h : t.location_label = none) (fc : String)
    (flat : Option ℚ) (hflat : flat ≠ none) (flon : Option ℚ)
    (qt opt : String) (isreg : Bool) :
    (proceed_turn q env t fc flat flon none qt opt isreg).response.location_address = some "Yolo County" := by
  have hlbl : (if fc = "unknown" then t else update_context t (some fc) none none none).location_label = none := by
    split
    · exact h
    · rw [(update_context_coord_none _ _).2.2]; exact h
  simp only [proceed_turn]
  simp [hflat, hlbl, pyOrOptStr, pyOrStrD]

theorem claim_C9_display_precedence (q : QueryInput) (s : SessionState) (env : Env) :
    (∀ a la lo nm, env.intent.location_address = some a → a ≠ "" →
      env.geo = some (la, lo, nm) → nm ≠ "" →
      (process_query q s env).synth ≠ none →
      (process_query q s env).response.location_address = some nm) ∧
    (∀ a, env.intent.location_address = some a → a ≠ "" → env.geo = none →
      pyOrQ q.lat s.lat ≠ none →
      (process_query q s env).synth ≠ none →
      (process_query q s env).response.location_address = some a) ∧
    (∀ lb, env.intent.location_address = none → s.location_label = some lb →
      lb ≠ "" → pyOrQ q.lat s.lat ≠ none →
      (process_query q s env).synth ≠ none →
      (process_query q s env).response.location_address = some lb) ∧
    (env.intent.location_address = none → s.location_label = none →
      pyOrQ q.lat s.lat ≠ none →
      (process_query q s env).synth ≠ none →
      (process_query q s env).response.location_address = some "Yolo County") := by
  refine ⟨?_, ?_, ?_, ?_⟩
  · intro a la lo nm haddr ha hgeo hnm hsynth
    have hgs : geocode_step env.intent.location_address env.geo
        (pyOrQ q.lat s.lat) (pyOrQ q.lon s.lon)
        (pyOrOptStr env.intent.location_address s.location_label) s =
        { lat := some la, lon := some lo, display := some nm,
          session := update_context s none (some la) (some lo) (some nm) } := by
      rw [haddr, hgeo]; exact geocode_step_success ha la lo nm _ _ _ s
    revert hsynth
    simp only [process_query, hgs]
    split
    · intro h; exact absurd rfl h
    · split
      · intro h; exact absurd rfl h
      · split
        · intro h; exact absurd rfl h
        · intro _
          simp only [reduceCtorEq, false_and, if_false]
          exact proceed_turn_response_display2 _ _ _ _ _ (by simp) _ _ hnm _ _ _
  · intro a haddr ha hgeo hlat hsynth
    have hgs : geocode_step (some a) none
        (pyOrQ q.lat s.lat) (pyOrQ q.lon s.lon) (some a) s =
        { lat := pyOrQ q.lat s.lat, lon := pyOrQ q.lon s.lon,
          display := some a, session := s } :=
      geocode_step_fail ha _ _ _ s
    revert hsynth
    simp only [process_query, haddr, hgeo, pyOrOptStr_some ha, hgs]
    split
    · intro h; exact absurd rfl h
    · split
      · intro h; exact absurd rfl h
      · split
        · intro h; exact absurd rfl h
        · intro _
          simp only [hlat, false_and, if_false]
          exact proceed_turn_response_display2 _ _ _ _ _ hlat _ _ ha _ _ _
  · intro lb haddr hlbl hne hlat hsynth
    have hgs : geocode_step env.intent.location_address env.geo
        (pyOrQ q.lat s.lat) (pyOrQ q.lon s.lon)
        (pyOrOptStr env.intent.location_address s.location_label) s =
        { lat := pyOrQ q.lat s.lat, lon := pyOrQ q.lon s.lon,
          display := some lb, session := s } := by
      rw [haddr, hlbl]; exact geocode_step_none _ _ _ _ s
    revert hsynth
    simp only [process_query, hgs]
    split
    · intro h; exact absurd rfl h
    · split
      · intro h; exact absurd rfl h
      · split
        · intro h; exact absurd rfl h
        · intro _
          simp only [hlat, false_and, if_false]
          exact proceed_turn_response_display2 _ _ _ _ _ hlat _ _ hne _ _ _
  · intro haddr hlbl hlat hsynth
    have hgs : geocode_step env.intent.location_address env.geo
        (pyOrQ q.lat s.lat) (pyOrQ q.lon s.lon)
        (pyOrOptStr env.intent.location_address s.location_label) s =
        { lat := pyOrQ q.lat s.lat, lon := pyOrQ q.lon s.lon,
          display := none, session := s } := by
      rw [haddr, hlbl]; exact geocode_step_none _ _ _ _ s
    revert hsynth
    simp only [process_query, hgs]
    split
    · intro h; exact absurd rfl h
    · split
      · intro h; exact absurd rfl h
      · split
        · intro h; exact absurd rfl h
        · intro _
          simp only [hlat, false_and, if_false]
          exact proceed_turn_response_display_default _ _ _ hlbl _ _ hlat _ _ _ _

/-- Environment fixture with an extracted address that geocodes
successfully. -/
def envWoodland : Env :=
  { envPlain with
      intent := { intentBase with location_address := some "Woodland" },
      geo := some (39, -122, "Woodland, CA") }

/-- Witness for claim C3: a concrete turn whose extracted address
geocodes overwrites the session coordinate and label (despite the
session already holding one) and is echoed in the response. -/
theorem claim_C3_witness :
    (process_query qWalnuts sessionAlmonds envWoodland).session.lat = some 39 ∧
    (process_query qWalnuts sessionAlmonds envWoodland).session.location_label = some "Woodland, CA" ∧
    (process_query qWalnuts sessionAlmonds envWoodland).response.location_address = some "Woodland, CA" := by
  have h := claim_C3_geocode_overwrite qWalnuts sessionAlmonds envWoodland
    "Woodland" rfl (by decide)
  have hA := h.1 39 (-122) "Woodland, CA" rfl (by decide) rfl
  exact ⟨hA.1, hA.2.2.1, (hA.2.2.2 (by decide)).2⟩

/-- Session fixture with a stored label "Davis, CA" and coordinate. -/
def sessionDavis : SessionState :=
  { SessionState.empty "d" with
      crop := some "almonds", location_label := some "Davis, CA",
      lat := some 38, lon := some (-121) }

/-- Environment fixture with an extracted address whose geocoding
fails. -/
def envWoodlandFail : Env :=
  { envPlain with
      intent := { intentBase with location_address := some "Woodland" } }

/-- Witness for claim C9: with no extracted address, a completed turn
displays the session's stored label. -/
theorem claim_C9_witness :
    (process_query { query := "water needs" } sessionDavis envPlain).response.location_address = some "Davis, CA" :=
  (claim_C9_display_precedence { query := "water needs" } sessionDavis envPlain).2.2.1
    "Davis, CA" rfl rfl (by decide) (by decide) (by decide)

/-- Claim C9 counterexample: when an address was extracted but
geocoding fails, the displayed address is the raw extracted address
string, not the session's stored label as the claim states. -/
theorem claim_C9_counterexample :
    (process_query { query := "water needs" } sessionDavis envWoodlandFail).response.location_address = some "Woodland" ∧
    (process_query { query := "water needs" } sessionDavis envWoodlandFail).response.location_address ≠ some "Davis, CA" := by
  constructor
  · rfl
  · decide

end TerraMind
